import Mathlib

/-!
Verification of the PNCT container-tracking core: the intent-based
projection engine (`_extract_data_by_intent` and its inner `_has_holds`
in src/activities/pnct_activities.py), the fetch activity
(`scrape_pnct_activity`, `_fetch_container_from_api`), and the durable
orchestration wrapper (`PNCTScrapeWorkflow.run` in
src/workflows/pnct_workflow.py) with its retry policy.

The Python values flowing through the code are JSON-like: we embed them
as the inductive type `Val` and model Python dictionaries as association
lists preserving insertion order (Python 3.7+ dicts preserve insertion
order, and the records here have distinct keys).
-/

/-- A JSON-like Python value.  Python floats are idealised as exact
rationals: the source performs no float arithmetic, it only stores
literals (40.7032, -74.1468, 0.0) and compares `Available == 2`. -/
inductive Val where
  | null
  | vBool (b : Bool)
  | vInt (n : Int)
  | vRat (q : Rat)
  | vStr (s : String)
  | vList (xs : List Val)
  | vDict (kvs : List (String × Val))

/-- A raw container record / Python dict: ordered association list. -/
abbrev Record : Type := List (String × Val)

/-- Python truthiness (`bool(x)`): None, False, 0, 0.0, "", [], {} are
falsy, everything else truthy. -/
def truthy : Val → Bool
  | .null => false
  | .vBool b => b
  | .vInt n => n != 0
  | .vRat q => q != 0
  | .vStr s => s != ""
  | .vList xs => !xs.isEmpty
  | .vDict kvs => !kvs.isEmpty

/-- Numeric view of a value, for Python's numeric equality tower
(`True == 1`, `2.0 == 2`). -/
def isNum : Val → Option Rat
  | .vBool b => some (if b then 1 else 0)
  | .vInt n => some (n : Rat)
  | .vRat q => some q
  | _ => none

mutual
/-- Python `==`.  Numbers (bool/int/float) compare through the numeric
tower; strings and None structurally.  In the embedded code `==` is only
ever applied with a string literal or the integer 2 on one side, so the
collection cases are unreachable there; they are given an
order-sensitive structural comparison (Python dict equality ignores
insertion order, which is not needed here). -/
def pyEq : Val → Val → Bool
  | .vStr s, .vStr t => s == t
  | .null, .null => true
  | .vList xs, .vList ys => pyEqList xs ys
  | .vDict xs, .vDict ys => pyEqPairs xs ys
  | a, b =>
    match isNum a, isNum b with
    | some x, some y => x == y
    | _, _ => false

def pyEqList : List Val → List Val → Bool
  | [], [] => true
  | x :: xs, y :: ys => pyEq x y && pyEqList xs ys
  | _, _ => false

def pyEqPairs : List (String × Val) → List (String × Val) → Bool
  | [], [] => true
  | (k, v) :: xs, (l, w) :: ys => k == l && pyEq v w && pyEqPairs xs ys
  | _, _ => false
end

/-- Python `dict.get(k)`: the stored value, or None when the key is
absent. -/
def pyGet (r : Record) (k : String) : Val := (List.lookup k r).getD .null

/-- Python `dict.get(k, d)`: the stored value, or `d` when the key is
absent (a stored None is returned as None, not as `d`). -/
def pyGetD (r : Record) (k : String) (d : Val) : Val := (List.lookup k r).getD d

/-- Python `a or b`: `a` if truthy, else `b`. -/
def pyOr (a b : Val) : Val := if truthy a then a else b

/-- Python `str(x)` as used by the f-string in the Misc-Hold label.
Scalar cases follow Python; the rendering of nested collections and the
decimal repr of floats are simplified (no claim depends on the rendered
text of a non-string hold status). -/
def pyStr : Val → String
  | .null => "None"
  | .vBool b => if b then "True" else "False"
  | .vInt n => toString n
  | .vRat q => toString q
  | .vStr s => s
  | .vList _ => "[...]"
  | .vDict _ => "{...}"

/-- The f-string `f"Misc Hold: {data.get('MiscHoldStatus')}"`. -/
def miscLabel (v : Val) : String := "Misc Hold: " ++ pyStr v

/-- `_has_holds` from src/activities/pnct_activities.py: returns
`(len(holds) > 0, holds)` where `holds` collects the triggered labels in
the source's fixed textual order. -/
def has_holds (data : Record) : Bool × List String :=
  let holds : List String :=
    (if pyEq (pyGet data "CarrierReleaseStatus") (.vStr "HOLD") then ["Carrier Hold"] else []) ++
    (if !pyEq (pyGet data "CustomReleaseStatus") (.vStr "RELEASED") then ["Customs Hold"] else []) ++
    (if !pyEq (pyGet data "UsdaStatus") (.vStr "RELEASED") then ["USDA Hold"] else []) ++
    (if truthy (pyGet data "YardReleaseStatus") &&
        !pyEq (pyGet data "YardReleaseStatus") (.vStr "RELEASED") then ["Yard Hold"] else []) ++
    (if truthy (pyGet data "MiscHoldStatus") then [miscLabel (pyGet data "MiscHoldStatus")] else []) ++
    (if truthy (pyGet data "IsTerminalHold") then ["Terminal Hold"] else [])
  (!holds.isEmpty, holds)

/-- The static placeholder coordinate pair attached by the `location`
view when both Block and Bay are truthy. -/
def placeholderCoordinates : Val :=
  .vDict [("lat", .vRat (40.7032 : Rat)), ("lon", .vRat (-74.1468 : Rat))]

/-- The base `location_data` dict built by the `location` branch of
`_extract_data_by_intent` (before the conditional `coordinates` key is
added).  The `all` branch's `location` sub-dict consists of exactly the
same eight entries. -/
def location_data (container_data : Record) (now : String) : List (String × Val) :=
  [("location", pyGetD container_data "Location" (.vStr "Unknown")),
   ("yard_name", pyGet container_data "YardName"),
   ("block", pyGet container_data "Block"),
   ("bay", pyGet container_data "Bay"),
   ("position", pyGet container_data "Position"),
   ("state", pyGetD container_data "State" (.vStr "Unknown")),
   ("container_state", pyGetD container_data "ContainerState" (.vStr "Unknown")),
   ("last_updated", .vStr now)]

/-- `_extract_data_by_intent` from src/activities/pnct_activities.py.
The current UTC timestamp written into every `last_updated` field is
passed in as `now` to keep the function pure; the source recomputes it
per section, which with a fixed clock yields the same string
everywhere. -/
def extract_data_by_intent (container_data : Record) (intent : String) (now : String) :
    List (String × Val) :=
  let hh := has_holds container_data
  if intent = "status" then
    [("status", pyGetD container_data "State" (.vStr "Unknown")),
     ("container_state", pyGetD container_data "ContainerState" (.vStr "Unknown")),
     ("location", pyGetD container_data "Location" (.vStr "Unknown")),
     ("available", .vBool (pyEq (pyGetD container_data "Available" (.vInt 0)) (.vInt 2))),
     ("availability_display_status", pyGetD container_data "AvailabilityDisplayStatus" (.vStr "Unknown")),
     ("last_updated", .vStr now)]
  else if intent = "location" then
    if truthy (pyGet container_data "Block") && truthy (pyGet container_data "Bay") then
      location_data container_data now ++ [("coordinates", placeholderCoordinates)]
    else
      location_data container_data now
  else if intent = "availability" then
    let available := pyEq (pyGetD container_data "Available" (.vInt 0)) (.vInt 2)
    [("available", .vBool available),
     ("availability_display_status", pyGetD container_data "AvailabilityDisplayStatus" (.vStr "No")),
     ("available_for_pickup", .vBool (available && !hh.1)),
     ("order_of_accessibility", pyGet container_data "OrderOfAccessibility"),
     ("last_updated", .vStr now)]
  else if intent = "holds" then
    [("has_holds", .vBool hh.1),
     ("hold_types", .vList (hh.2.map Val.vStr)),
     ("carrier_release_status", pyGet container_data "CarrierReleaseStatus"),
     ("custom_release_status", pyGet container_data "CustomReleaseStatus"),
     ("usda_status", pyGet container_data "UsdaStatus"),
     ("yard_release_status", pyGet container_data "YardReleaseStatus"),
     ("misc_hold_status", pyGet container_data "MiscHoldStatus"),
     ("misc_hold_detail", pyGet container_data "MiscHoldDetail"),
     ("is_terminal_hold", pyGetD container_data "IsTerminalHold" (.vBool false)),
     ("carrier_hold", pyGetD container_data "CarrierHold" (.vInt 0)),
     ("last_updated", .vStr now)]
  else if intent = "last_free_day" then
    let last_free_date := pyOr (pyGet container_data "LastFreeDate") (pyGet container_data "LastFreeDt")
    let line_last_free_date :=
      pyOr (pyGet container_data "LineLastFreeDate") (pyGet container_data "LineLastFreeDt")
    let free_days := pyGetD container_data "FreeDays" (.vStr "0")
    [("last_free_date", last_free_date),
     ("line_last_free_date", line_last_free_date),
     ("free_days", free_days),
     ("first_free_date", pyGet container_data "FirstFreeDate"),
     ("demurrage_due_flag", pyGet container_data "DemurrageDueFlag"),
     ("demurrage_amount", pyGetD container_data "DemurrageAmount" (.vRat 0)),
     ("line_demurrage_amount", pyGetD container_data "LineDemurrageAmount" (.vRat 0)),
     ("is_on_demurrage_warning", pyGetD container_data "IsOnDemurrageWarning" (.vBool false)),
     ("last_updated", .vStr now)]
  else if intent = "all" then
    let hh2 := has_holds container_data
    let available := pyEq (pyGetD container_data "Available" (.vInt 0)) (.vInt 2)
    let last_free_date := pyOr (pyGet container_data "LastFreeDate") (pyGet container_data "LastFreeDt")
    let line_last_free_date :=
      pyOr (pyGet container_data "LineLastFreeDate") (pyGet container_data "LineLastFreeDt")
    [("status", .vDict
       [("status", pyGetD container_data "State" (.vStr "Unknown")),
        ("container_state", pyGetD container_data "ContainerState" (.vStr "Unknown")),
        ("location", pyGetD container_data "Location" (.vStr "Unknown")),
        ("available", .vBool available),
        ("availability_display_status", pyGetD container_data "AvailabilityDisplayStatus" (.vStr "Unknown")),
        ("last_updated", .vStr now)]),
     ("location", .vDict (location_data container_data now)),
     ("availability", .vDict
       [("available", .vBool available),
        ("availability_display_status", pyGetD container_data "AvailabilityDisplayStatus" (.vStr "No")),
        ("available_for_pickup", .vBool (available && !hh2.1)),
        ("order_of_accessibility", pyGet container_data "OrderOfAccessibility"),
        ("last_updated", .vStr now)]),
     ("holds", .vDict
       [("has_holds", .vBool hh2.1),
        ("hold_types", .vList (hh2.2.map Val.vStr)),
        ("carrier_release_status", pyGet container_data "CarrierReleaseStatus"),
        ("custom_release_status", pyGet container_data "CustomReleaseStatus"),
        ("usda_status", pyGet container_data "UsdaStatus"),
        ("yard_release_status", pyGet container_data "YardReleaseStatus"),
        ("misc_hold_status", pyGet container_data "MiscHoldStatus"),
        ("misc_hold_detail", pyGet container_data "MiscHoldDetail"),
        ("is_terminal_hold", pyGetD container_data "IsTerminalHold" (.vBool false)),
        ("carrier_hold", pyGetD container_data "CarrierHold" (.vInt 0)),
        ("last_updated", .vStr now)]),
     ("last_free_day", .vDict
       [("last_free_date", last_free_date),
        ("line_last_free_date", line_last_free_date),
        ("free_days", pyGetD container_data "FreeDays" (.vStr "0")),
        ("first_free_date", pyGet container_data "FirstFreeDate"),
        ("demurrage_due_flag", pyGet container_data "DemurrageDueFlag"),
        ("demurrage_amount", pyGetD container_data "DemurrageAmount" (.vRat 0)),
        ("line_demurrage_amount", pyGetD container_data "LineDemurrageAmount" (.vRat 0)),
        ("is_on_demurrage_warning", pyGetD container_data "IsOnDemurrageWarning" (.vBool false)),
        ("last_updated", .vStr now)])]
  else
    [("raw_data", .vDict container_data),
     ("last_updated", .vStr now)]

/-- An HTTP response from the upstream terminal API; `body` is the
JSON-decoded payload (`response.json()` in
`_fetch_container_from_api`). -/
structure HttpResponse where
  statusCode : Nat
  body : Val

/-- The observable result of the single outbound HTTP GET: either a
response with a status code, or a transport-level failure
(`httpx.RequestError`) raised before a status code is obtained. -/
inductive NetResult where
  | ok (response : HttpResponse)
  | requestError (msg : String)

/-- The record-shaping step of `_fetch_container_from_api`: a non-empty
JSON array yields its first element, a JSON object is used directly,
anything else yields None. -/
def extractRecord : Val → Val
  | .vList (x :: _) => x
  | .vDict kvs => .vDict kvs
  | _ => .null

/-- Result of `_fetch_container_from_api`: the shaped record on a 2xx
response, `httpStatusError` for a non-2xx status (`raise_for_status`),
`requestError` for a transport failure.  A body that fails to decode as
JSON at all raises a generic error and is outside this model. -/
inductive FetchResult where
  | ok (data : Val)
  | httpStatusError (code : Nat)
  | requestError (msg : String)

def fetch_container_from_api (net : NetResult) : FetchResult :=
  match net with
  | .requestError m => .requestError m
  | .ok resp =>
    if 200 ≤ resp.statusCode ∧ resp.statusCode < 300 then
      .ok (extractRecord resp.body)
    else
      .httpStatusError resp.statusCode

/-- The typed failure taxonomy of `scrape_pnct_activity`.
`invalidInput` and `notFound` are raised as Python `ValueError`,
`upstreamError` and `networkError` as generic `Exception`;
`otherError` stands for any other re-raised exception (e.g. the
AttributeError hit when a truthy non-dict record reaches
`_extract_data_by_intent`). -/
inductive FetchOutcome where
  | success (payload : List (String × Val))
  | invalidInput (containerId : String)
  | notFound (containerId : String)
  | upstreamError (code : Nat)
  | networkError (msg : String)
  | otherError

/-- `scrape_pnct_activity` from src/activities/pnct_activities.py, with
the network modelled as an explicit input and the clock as `now`.  The
second component records whether the outbound HTTP GET was performed. -/
def scrape_pnct_activity (container_id intent : String) (net : NetResult) (now : String) :
    FetchOutcome × Bool :=
  if container_id = "" ∨ container_id.length < 4 then
    (.invalidInput container_id, false)
  else
    match fetch_container_from_api net with
    | .requestError m => (.networkError m, true)
    | .httpStatusError code =>
      if code = 404 then (.notFound container_id, true)
      else (.upstreamError code, true)
    | .ok container_data =>
      if truthy container_data = false then
        (.notFound container_id, true)
      else
        match container_data with
        | .vDict kvs =>
          (.success
            [("container_id", .vStr container_id),
             ("intent", .vStr intent),
             ("data", .vDict (extract_data_by_intent kvs intent now)),
             ("scraped_at", .vStr now)], true)
        | _ => (.otherError, true)

/-- The retry policy passed to `workflow.execute_activity` in
src/workflows/pnct_workflow.py.  Temporal's `RetryPolicy` also carries a
`non_retryable_error_types` list, which the workflow leaves at its
default (empty). -/
structure RetryPolicy where
  initialIntervalSec : Nat
  backoffCoefficient : Rat
  maximumIntervalSec : Nat
  maximumAttempts : Nat
  nonRetryableErrorTypes : List String

def retry_policy : RetryPolicy :=
  { initialIntervalSec := 1
    backoffCoefficient := 2
    maximumIntervalSec := 10
    maximumAttempts := 3
    nonRetryableErrorTypes := [] }

/-- The Python exception type name under which each activity outcome is
raised, which is what Temporal matches `non_retryable_error_types`
against. -/
def errorTypeName : FetchOutcome → String
  | .invalidInput _ => "ValueError"
  | .notFound _ => "ValueError"
  | .upstreamError _ => "Exception"
  | .networkError _ => "Exception"
  | .otherError => "AttributeError"
  | .success _ => ""

def isSuccess : FetchOutcome → Bool
  | .success _ => true
  | _ => false

/-- Modelled from the spec and Temporal's documented activity-retry
contract (the temporalio engine is an external dependency, not part of
src/): attempts run strictly sequentially; a failed attempt is retried
unless its error type is listed in `nonRetryableErrorTypes` or the
attempt budget `maximumAttempts` is exhausted, in which case the last
error is surfaced.  `fuel` is the number of retries still allowed and
`k` the index of the current attempt; the result carries the total
number of attempts performed. -/
def retryLoop (policy : RetryPolicy) (attempt : Nat → FetchOutcome) (k : Nat) :
    Nat → FetchOutcome × Nat
  | 0 => (attempt k, k + 1)
  | fuel + 1 =>
    let e := attempt k
    if isSuccess e then (e, k + 1)
    else if policy.nonRetryableErrorTypes.contains (errorTypeName e) then (e, k + 1)
    else retryLoop policy attempt (k + 1) fuel

/-- `PNCTScrapeWorkflow.run` from src/workflows/pnct_workflow.py: one
logical execution of the fetch activity under `retry_policy`, where
`nets` gives the network's behaviour on each attempt.  Returns the final
outcome and the number of activity attempts performed. -/
def PNCTScrapeWorkflow_run (container_id intent : String) (nets : Nat → NetResult)
    (now : String) : FetchOutcome × Nat :=
  retryLoop retry_policy (fun k => (scrape_pnct_activity container_id intent (nets k) now).1)
    0 (retry_policy.maximumAttempts - 1)

/-! ## Helper lemmas -/

/-- The Misc-Hold label always begins with "Misc Hold: ", so it can
never collide with the Carrier label. -/
theorem miscLabel_ne_carrier (v : Val) : miscLabel v ≠ "Carrier Hold" := by
  intro h
  have h2 := congrArg String.data h
  have e1 : (miscLabel v).data = "Misc Hold: ".data ++ (pyStr v).data := rfl
  rw [e1] at h2
  have e2 : "Misc Hold: ".data = ['M','i','s','c',' ','H','o','l','d',':',' '] := rfl
  have e3 : "Carrier Hold".data = ['C','a','r','r','i','e','r',' ','H','o','l','d'] := rfl
  rw [e2, e3] at h2
  simp only [List.cons_append] at h2
  injection h2 with hM _
  exact absurd hM (by decide)

/-- The `location` view is the base dict, plus the placeholder
coordinates exactly when Block and Bay are both truthy. -/
theorem extract_location_eq (r : Record) (now : String) :
    extract_data_by_intent r "location" now =
      if truthy (pyGet r "Block") && truthy (pyGet r "Bay") then
        location_data r now ++ [("coordinates", placeholderCoordinates)]
      else location_data r now := rfl

/-- A conditional singleton is a sublist of the singleton. -/
theorem sublist_ite_singleton (c : Prop) [Decidable c] (x : String) :
    List.Sublist (if c then [x] else []) [x] := by
  split
  · exact List.Sublist.refl _
  · exact List.nil_sublist _

/-- A label different from `y` is never in the conditional singleton
`[y]`. -/
theorem not_mem_ite_singleton {x y : String} {c : Prop} [Decidable c] (h : x ≠ y) :
    x ∉ (if c then [y] else []) := by
  split
  · simp [h]
  · simp

/-- Python `None == "s"` is false. -/
theorem pyEq_null_vStr (s : String) : pyEq .null (.vStr s) = false := rfl

/-- The retry loop never performs more than `fuel + 1` attempts beyond
index `k`. -/
theorem retryLoop_count_le (p : RetryPolicy) (a : Nat → FetchOutcome) :
    ∀ fuel k, (retryLoop p a k fuel).2 ≤ k + fuel + 1 := by
  intro fuel
  induction fuel with
  | zero => intro k; simp [retryLoop]
  | succ n ih =>
    intro k
    simp only [retryLoop]
    split
    · simp
    · split
      · simp
      · have := ih (k + 1)
        omega

/-- The retry loop only ever consults attempts `k .. k + fuel`: two
attempt sequences agreeing there produce identical runs. -/
theorem retryLoop_congr (p : RetryPolicy) (a b : Nat → FetchOutcome) :
    ∀ fuel k, (∀ i, k ≤ i → i ≤ k + fuel → a i = b i) →
      retryLoop p a k fuel = retryLoop p b k fuel := by
  intro fuel
  induction fuel with
  | zero =>
    intro k h
    simp [retryLoop, h k le_rfl (by omega)]
  | succ n ih =>
    intro k h
    simp only [retryLoop]
    rw [h k le_rfl (by omega)]
    split
    · rfl
    · split
      · rfl
      · exact ih (k + 1) (fun i h1 h2 => h i (by omega) (by omega))

/-- On a valid container id and a 2xx response, the activity reduces to
the falsy-record check followed by projection. -/
theorem scrape_ok2xx (cid intent now : String) (resp : HttpResponse)
    (h : ¬(cid = "" ∨ cid.length < 4)) (h2 : 200 ≤ resp.statusCode ∧ resp.statusCode < 300) :
    scrape_pnct_activity cid intent (.ok resp) now =
      if truthy (extractRecord resp.body) = false then (.notFound cid, true)
      else
        match extractRecord resp.body with
        | .vDict kvs =>
          (.success
            [("container_id", .vStr cid), ("intent", .vStr intent),
             ("data", .vDict (extract_data_by_intent kvs intent now)),
             ("scraped_at", .vStr now)], true)
        | _ => (.otherError, true) := by
  unfold scrape_pnct_activity
  rw [if_neg h]
  have e0 : fetch_container_from_api (.ok resp) =
      if 200 ≤ resp.statusCode ∧ resp.statusCode < 300 then
        FetchResult.ok (extractRecord resp.body)
      else FetchResult.httpStatusError resp.statusCode := rfl
  rw [if_pos h2] at e0
  rw [e0]

/-- On a valid container id and a non-2xx response, the activity maps
404 to NotFound and any other status to UpstreamError. -/
theorem scrape_okNon2xx (cid intent now : String) (resp : HttpResponse)
    (h : ¬(cid = "" ∨ cid.length < 4)) (h2 : ¬(200 ≤ resp.statusCode ∧ resp.statusCode < 300)) :
    scrape_pnct_activity cid intent (.ok resp) now =
      if resp.statusCode = 404 then (.notFound cid, true)
      else (.upstreamError resp.statusCode, true) := by
  unfold scrape_pnct_activity
  rw [if_neg h]
  have e0 : fetch_container_from_api (.ok resp) =
      if 200 ≤ resp.statusCode ∧ resp.statusCode < 300 then
        FetchResult.ok (extractRecord resp.body)
      else FetchResult.httpStatusError resp.statusCode := rfl
  rw [if_neg h2] at e0
  rw [e0]

/-- Spec §4.1 evaluated at the empty record: the tabulated per-field
defaults for every intent, stated independently of the implementation
for comparison (the fallback for an unrecognized intent wraps the raw
record under `raw_data`). -/
def specEmptyRecordView (intent : String) (now : String) : List (String × Val) :=
  if intent = "status" then
    [("status", .vStr "Unknown"), ("container_state", .vStr "Unknown"),
     ("location", .vStr "Unknown"), ("available", .vBool false),
     ("availability_display_status", .vStr "Unknown"), ("last_updated", .vStr now)]
  else if intent = "location" then
    [("location", .vStr "Unknown"), ("yard_name", .null), ("block", .null),
     ("bay", .null), ("position", .null), ("state", .vStr "Unknown"),
     ("container_state", .vStr "Unknown"), ("last_updated", .vStr now)]
  else if intent = "availability" then
    [("available", .vBool false), ("availability_display_status", .vStr "No"),
     ("available_for_pickup", .vBool false), ("order_of_accessibility", .null),
     ("last_updated", .vStr now)]
  else if intent = "holds" then
    [("has_holds", .vBool true),
     ("hold_types", .vList [.vStr "Customs Hold", .vStr "USDA Hold"]),
     ("carrier_release_status", .null), ("custom_release_status", .null),
     ("usda_status", .null), ("yard_release_status", .null),
     ("misc_hold_status", .null), ("misc_hold_detail", .null),
     ("is_terminal_hold", .vBool false), ("carrier_hold", .vInt 0),
     ("last_updated", .vStr now)]
  else if intent = "last_free_day" then
    [("last_free_date", .null), ("line_last_free_date", .null),
     ("free_days", .vStr "0"), ("first_free_date", .null),
     ("demurrage_due_flag", .null), ("demurrage_amount", .vRat 0),
     ("line_demurrage_amount", .vRat 0), ("is_on_demurrage_warning", .vBool false),
     ("last_updated", .vStr now)]
  else if intent = "all" then
    [("status", .vDict
       [("status", .vStr "Unknown"), ("container_state", .vStr "Unknown"),
        ("location", .vStr "Unknown"), ("available", .vBool false),
        ("availability_display_status", .vStr "Unknown"), ("last_updated", .vStr now)]),
     ("location", .vDict
       [("location", .vStr "Unknown"), ("yard_name", .null), ("block", .null),
        ("bay", .null), ("position", .null), ("state", .vStr "Unknown"),
        ("container_state", .vStr "Unknown"), ("last_updated", .vStr now)]),
     ("availability", .vDict
       [("available", .vBool false), ("availability_display_status", .vStr "No"),
        ("available_for_pickup", .vBool false), ("order_of_accessibility", .null),
        ("last_updated", .vStr now)]),
     ("holds", .vDict
       [("has_holds", .vBool true),
        ("hold_types", .vList [.vStr "Customs Hold", .vStr "USDA Hold"]),
        ("carrier_release_status", .null), ("custom_release_status", .null),
        ("usda_status", .null), ("yard_release_status", .null),
        ("misc_hold_status", .null), ("misc_hold_detail", .null),
        ("is_terminal_hold", .vBool false), ("carrier_hold", .vInt 0),
        ("last_updated", .vStr now)]),
     ("last_free_day", .vDict
       [("last_free_date", .null), ("line_last_free_date", .null),
        ("free_days", .vStr "0"), ("first_free_date", .null),
        ("demurrage_due_flag", .null), ("demurrage_amount", .vRat 0),
        ("line_demurrage_amount", .vRat 0), ("is_on_demurrage_warning", .vBool false),
        ("last_updated", .vStr now)])]
  else
    [("raw_data", .vDict []), ("last_updated", .vStr now)]

/-- The C2 example record: CustomReleaseStatus "PENDING" and
IsTerminalHold true, nothing else. -/
def c2rec : Record := [("CustomReleaseStatus", .vStr "PENDING"), ("IsTerminalHold", .vBool true)]

/-- A record with truthy Block and Bay, used for the C4 coordinates
discrepancy. -/
def c4rec : Record := [("Block", .vStr "A"), ("Bay", .vStr "7")]

/-- A record where Block is present but falsy (empty string) and Bay is
present and truthy, used for the C9 presence/truthiness discrepancy. -/
def c9rec : Record := [("Block", .vStr ""), ("Bay", .vStr "7")]

/-! ## Claim theorems -/

/-- C1: for intent `availability`, for every raw container record and
every value of `Available`, the projected view's `available_for_pickup`
field is true iff the record's `Available` field equals 2 (Python `==`,
with the source's default 0 when absent) and the hold assessment
reports no holds. -/
theorem c1_available_for_pickup_iff (r : Record) (now : String) :
    List.lookup "available_for_pickup" (extract_data_by_intent r "availability" now)
        = some (.vBool true)
      ↔ (pyEq (pyGetD r "Available" (.vInt 0)) (.vInt 2) = true ∧ (has_holds r).1 = false) := by
  have h : List.lookup "available_for_pickup" (extract_data_by_intent r "availability" now)
      = some (.vBool (pyEq (pyGetD r "Available" (.vInt 0)) (.vInt 2) && !(has_holds r).1)) := rfl
  rw [h]
  simp

/-- C2 counterexample: the record with exactly
CustomReleaseStatus = "PENDING" and IsTerminalHold = true yields
["Customs Hold", "USDA Hold", "Terminal Hold"] (the absent UsdaStatus
also triggers a hold), not ["Customs Hold", "Terminal Hold"] as
claimed. -/
theorem c2_example_counterexample :
    (has_holds c2rec).2 = ["Customs Hold", "USDA Hold", "Terminal Hold"] ∧
    (has_holds c2rec).2 ≠ ["Customs Hold", "Terminal Hold"] := by decide

/-- C2 amended: hold labels always appear in the fixed relative order
Carrier, Customs, USDA, Yard, Misc, Terminal (`hold_types` is a sublist
of the ordered candidate list), and the example record with exactly
CustomReleaseStatus = "PENDING" and IsTerminalHold = true yields
["Customs Hold", "USDA Hold", "Terminal Hold"], the USDA label included
because an absent UsdaStatus also triggers a USDA hold. -/
theorem c2_hold_order_fixed (r : Record) :
    List.Sublist (has_holds r).2
      ["Carrier Hold", "Customs Hold", "USDA Hold", "Yard Hold",
       miscLabel (pyGet r "MiscHoldStatus"), "Terminal Hold"] ∧
    (has_holds c2rec).2 = ["Customs Hold", "USDA Hold", "Terminal Hold"] := by
  constructor
  · show List.Sublist _
      (["Carrier Hold"] ++ (["Customs Hold"] ++ (["USDA Hold"] ++ (["Yard Hold"] ++
        ([miscLabel (pyGet r "MiscHoldStatus")] ++ ["Terminal Hold"])))))
    have hh : (has_holds r).2 =
        (if pyEq (pyGet r "CarrierReleaseStatus") (.vStr "HOLD") then ["Carrier Hold"] else []) ++
        ((if !pyEq (pyGet r "CustomReleaseStatus") (.vStr "RELEASED") then ["Customs Hold"] else []) ++
         ((if !pyEq (pyGet r "UsdaStatus") (.vStr "RELEASED") then ["USDA Hold"] else []) ++
          ((if truthy (pyGet r "YardReleaseStatus") &&
               !pyEq (pyGet r "YardReleaseStatus") (.vStr "RELEASED") then ["Yard Hold"] else []) ++
           ((if truthy (pyGet r "MiscHoldStatus") then [miscLabel (pyGet r "MiscHoldStatus")] else []) ++
            (if truthy (pyGet r "IsTerminalHold") then ["Terminal Hold"] else []))))) := by
      simp only [has_holds, List.append_assoc]
    rw [hh]
    exact List.Sublist.append (sublist_ite_singleton _ _)
      (List.Sublist.append (sublist_ite_singleton _ _)
        (List.Sublist.append (sublist_ite_singleton _ _)
          (List.Sublist.append (sublist_ite_singleton _ _)
            (List.Sublist.append (sublist_ite_singleton _ _) (sublist_ite_singleton _ _)))))
  · decide

/-- C3 counterexample: with the workflow's retry policy, an activity
that keeps failing with InvalidInput (container id "AB", shorter than 4
characters) is attempted 3 times, not surfaced after exactly one
attempt as claimed: the RetryPolicy in src/workflows/pnct_workflow.py
names no non-retryable error types, so the ValueError is retried. -/
theorem c3_invalid_input_retried_counterexample :
    (PNCTScrapeWorkflow_run "AB" "status" (fun _ => .ok ⟨200, .null⟩) "T").2 = 3 ∧
    (PNCTScrapeWorkflow_run "AB" "status" (fun _ => .ok ⟨200, .null⟩) "T").1
        = .invalidInput "AB" ∧
    ¬(PNCTScrapeWorkflow_run "AB" "status" (fun _ => .ok ⟨200, .null⟩) "T").2 = 1 := by
  refine ⟨rfl, rfl, ?_⟩
  intro h
  exact absurd h (by decide)

/-- C3 amended: every failure kind — InvalidInput, NotFound,
UpstreamError and NetworkError alike — is retried under the backoff
policy (initial interval 1s, multiplier 2.0, cap 10s, maximum 3
attempts total): the RetryPolicy names no non-retryable error types,
so a persistent failure of any kind exhausts all 3 attempts instead of
being surfaced after one. -/
theorem c3_all_failures_retried (now m : String) :
    (PNCTScrapeWorkflow_run "AB" "status" (fun _ => .ok ⟨200, .null⟩) now).2 = 3 ∧
    (PNCTScrapeWorkflow_run "MSCU1234567" "status" (fun _ => .ok ⟨404, .null⟩) now).2 = 3 ∧
    (PNCTScrapeWorkflow_run "MSCU1234567" "status" (fun _ => .ok ⟨503, .null⟩) now).2 = 3 ∧
    (PNCTScrapeWorkflow_run "MSCU1234567" "status" (fun _ => .requestError m) now).2 = 3 ∧
    retry_policy = ⟨1, 2, 10, 3, []⟩ := ⟨rfl, rfl, rfl, rfl, rfl⟩

/-- C4 counterexample: on a record with truthy Block and Bay, the
`location` sub-object of the `all` view omits the `coordinates` field
that the single-intent `location` projection attaches, so the
sub-objects are not identical apart from timestamp fields. -/
theorem c4_location_coordinates_counterexample :
    List.lookup "location" (extract_data_by_intent c4rec "all" "T")
        = some (.vDict (location_data c4rec "T")) ∧
    List.lookup "coordinates" (location_data c4rec "T") = none ∧
    List.lookup "coordinates" (extract_data_by_intent c4rec "location" "T")
        = some placeholderCoordinates := ⟨rfl, rfl, rfl⟩

/-- C4 amended: the `all` view has exactly the five keys status,
location, availability, holds, last_free_day; its status, availability,
holds and last_free_day sub-objects equal the corresponding
single-intent projections (timestamps included, under a shared clock),
while its location sub-object equals the single-intent location
projection with the conditional `coordinates` field removed. -/
theorem c4_all_composition (r : Record) (now : String) :
    (extract_data_by_intent r "all" now).map Prod.fst
        = ["status", "location", "availability", "holds", "last_free_day"] ∧
    List.lookup "status" (extract_data_by_intent r "all" now)
        = some (.vDict (extract_data_by_intent r "status" now)) ∧
    List.lookup "availability" (extract_data_by_intent r "all" now)
        = some (.vDict (extract_data_by_intent r "availability" now)) ∧
    List.lookup "holds" (extract_data_by_intent r "all" now)
        = some (.vDict (extract_data_by_intent r "holds" now)) ∧
    List.lookup "last_free_day" (extract_data_by_intent r "all" now)
        = some (.vDict (extract_data_by_intent r "last_free_day" now)) ∧
    List.lookup "location" (extract_data_by_intent r "all" now)
        = some (.vDict ((extract_data_by_intent r "location" now).filter
            (fun kv => kv.1 != "coordinates"))) := by
  refine ⟨rfl, rfl, rfl, rfl, rfl, ?_⟩
  rw [extract_location_eq]
  by_cases hb : (truthy (pyGet r "Block") && truthy (pyGet r "Bay")) = true
  · rw [if_pos hb]; rfl
  · rw [if_neg hb]; rfl

/-- C5: for every container id that is empty or shorter than 4
characters, and for every intent and network behaviour, the activity
fails with InvalidInput and the outbound HTTP GET is never performed. -/
theorem c5_invalid_input_no_network (cid intent now : String) (net : NetResult)
    (h : cid.length < 4) :
    scrape_pnct_activity cid intent net now = (.invalidInput cid, false) := by
  unfold scrape_pnct_activity
  rw [if_pos (Or.inr h)]

/-- Witness for C5 at container id "AB". -/
theorem c5_invalid_input_no_network_witness :
    ("AB" : String).length < 4 ∧
    scrape_pnct_activity "AB" "status" (.requestError "connection refused") "T"
        = (.invalidInput "AB", false) :=
  ⟨by decide,
   c5_invalid_input_no_network "AB" "status" "T" (.requestError "connection refused") (by decide)⟩

/-- C6: the projection engine is total; projecting the empty record
under every intent (including unrecognized ones) returns exactly the
documented per-field defaults, as tabulated in `specEmptyRecordView`
(status/location/container_state "Unknown", available false, free_days
"0", demurrage amounts 0.0, carrier_hold 0, is_terminal_hold false). -/
theorem c6_empty_record_defaults (intent now : String) :
    extract_data_by_intent [] intent now = specEmptyRecordView intent now := by
  by_cases h1 : intent = "status"
  · subst h1; rfl
  by_cases h2 : intent = "location"
  · subst h2; rfl
  by_cases h3 : intent = "availability"
  · subst h3; rfl
  by_cases h4 : intent = "holds"
  · subst h4; rfl
  by_cases h5 : intent = "last_free_day"
  · subst h5; rfl
  by_cases h6 : intent = "all"
  · subst h6; rfl
  simp only [extract_data_by_intent, specEmptyRecordView, if_neg h1, if_neg h2, if_neg h3,
    if_neg h4, if_neg h5, if_neg h6]

/-- C7: the orchestration wrapper never performs more than 3 activity
attempts; it only ever consults the first three network responses (so a
4th upstream request is never issued), and under three consecutive 503
responses the run makes exactly 3 attempts and surfaces the upstream
failure. -/
theorem c7_attempt_ceiling (cid intent now : String) (nets nets2 : Nat → NetResult)
    (h : ∀ i, i < 3 → nets i = nets2 i) :
    (PNCTScrapeWorkflow_run cid intent nets now).2 ≤ 3 ∧
    PNCTScrapeWorkflow_run cid intent nets now = PNCTScrapeWorkflow_run cid intent nets2 now ∧
    (PNCTScrapeWorkflow_run "MSCU1234567" "status" (fun _ => .ok ⟨503, .null⟩) now).1
        = .upstreamError 503 ∧
    (PNCTScrapeWorkflow_run "MSCU1234567" "status" (fun _ => .ok ⟨503, .null⟩) now).2 = 3 := by
  refine ⟨?_, ?_, rfl, rfl⟩
  · have := retryLoop_count_le retry_policy
      (fun k => (scrape_pnct_activity cid intent (nets k) now).1) 2 0
    simpa using this
  · exact retryLoop_congr retry_policy
      (fun k => (scrape_pnct_activity cid intent (nets k) now).1)
      (fun k => (scrape_pnct_activity cid intent (nets2 k) now).1)
      2 0 (fun i h1 h2 => by
        show (scrape_pnct_activity cid intent (nets i) now).1
            = (scrape_pnct_activity cid intent (nets2 i) now).1
        rw [h i (by omega)])

/-- Witness for C7 with both attempt sequences returning 503. -/
theorem c7_attempt_ceiling_witness :
    (PNCTScrapeWorkflow_run "MSCU1234567" "status" (fun _ => .ok ⟨503, .null⟩) "T").2 ≤ 3 ∧
    PNCTScrapeWorkflow_run "MSCU1234567" "status" (fun _ => .ok ⟨503, .null⟩) "T"
        = PNCTScrapeWorkflow_run "MSCU1234567" "status" (fun _ => .ok ⟨503, .null⟩) "T" ∧
    (PNCTScrapeWorkflow_run "MSCU1234567" "status" (fun _ => .ok ⟨503, .null⟩) "T").1
        = .upstreamError 503 ∧
    (PNCTScrapeWorkflow_run "MSCU1234567" "status" (fun _ => .ok ⟨503, .null⟩) "T").2 = 3 :=
  c7_attempt_ceiling "MSCU1234567" "status" "T"
    (fun _ => .ok ⟨503, .null⟩) (fun _ => .ok ⟨503, .null⟩) (fun _ _ => rfl)

/-- C8 counterexample: a 200 response whose body is the one-element
array [{}] — and likewise a bare empty object {} — is treated as
NotFound, although the body is neither a 404 nor an empty/null body and
the claim says the record would be used. -/
theorem c8_falsy_record_counterexample :
    (scrape_pnct_activity "MSCU1234567" "status" (.ok ⟨200, .vList [.vDict []]⟩) "T").1
        = .notFound "MSCU1234567" ∧
    (scrape_pnct_activity "MSCU1234567" "status" (.ok ⟨200, .vDict []⟩) "T").1
        = .notFound "MSCU1234567" := ⟨rfl, rfl⟩

/-- C8 amended: for a valid container id, the activity fails with
NotFound exactly when the upstream returns HTTP 404, or returns a 2xx
response whose extracted record — the first element of a non-empty JSON
array, the object itself for a JSON object, and null for any other body
shape — is falsy (null, an empty object, False, 0, or an empty
string). -/
theorem c8_not_found_iff (cid intent now : String) (resp : HttpResponse)
    (h : ¬(cid = "" ∨ cid.length < 4)) :
    (scrape_pnct_activity cid intent (.ok resp) now).1 = .notFound cid
      ↔ (resp.statusCode = 404 ∨
         (200 ≤ resp.statusCode ∧ resp.statusCode < 300 ∧
          truthy (extractRecord resp.body) = false)) := by
  by_cases h2 : 200 ≤ resp.statusCode ∧ resp.statusCode < 300
  · rw [scrape_ok2xx cid intent now resp h h2]
    by_cases h3 : truthy (extractRecord resp.body) = false
    · rw [if_pos h3]
      exact iff_of_true rfl (Or.inr ⟨h2.1, h2.2, h3⟩)
    · rw [if_neg h3]
      refine iff_of_false ?_ ?_
      · cases hv : extractRecord resp.body <;> simp
      · rintro (h404 | ⟨-, -, ht⟩)
        · omega
        · exact h3 ht
  · rw [scrape_okNon2xx cid intent now resp h h2]
    by_cases h4 : resp.statusCode = 404
    · rw [if_pos h4]
      exact iff_of_true rfl (Or.inl h4)
    · rw [if_neg h4]
      refine iff_of_false (by simp) ?_
      rintro (h404 | ⟨ha, hb, -⟩)
      · exact h4 h404
      · exact h2 ⟨ha, hb⟩

/-- Witness for C8 on a 404 response. -/
theorem c8_not_found_iff_witness :
    ¬(("MSCU1234567" : String) = "" ∨ ("MSCU1234567" : String).length < 4) ∧
    ((scrape_pnct_activity "MSCU1234567" "status"
        (.ok ⟨404, .null⟩) "T").1 = .notFound "MSCU1234567"
      ↔ ((404 : Nat) = 404 ∨
         (200 ≤ (404 : Nat) ∧ (404 : Nat) < 300 ∧ truthy (extractRecord .null) = false))) :=
  ⟨by decide, c8_not_found_iff "MSCU1234567" "status" "T" ⟨404, .null⟩ (by decide)⟩

/-- C9 counterexample: on a record where Block and Bay are both present
but Block is the falsy empty string, no `coordinates` field is attached,
although the claim (presence of both keys) requires one. -/
theorem c9_presence_counterexample :
    List.lookup "Block" c9rec = some (.vStr "") ∧
    List.lookup "Bay" c9rec = some (.vStr "7") ∧
    List.lookup "coordinates" (extract_data_by_intent c9rec "location" "T") = none :=
  ⟨rfl, rfl, rfl⟩

/-- C9 amended: the `location` view contains a `coordinates` field
equal to the static constant pair (lat 40.7032, lon −74.1468) exactly
when Block and Bay are both truthy (present with a non-empty, non-zero
value), and no `coordinates` field otherwise. -/
theorem c9_coordinates_iff_truthy (r : Record) (now : String) :
    List.lookup "coordinates" (extract_data_by_intent r "location" now)
      = (if truthy (pyGet r "Block") && truthy (pyGet r "Bay")
         then some placeholderCoordinates else none) := by
  rw [extract_location_eq]
  by_cases hb : (truthy (pyGet r "Block") && truthy (pyGet r "Bay")) = true
  · rw [if_pos hb, if_pos hb]; rfl
  · rw [if_neg hb, if_neg hb]; rfl

/-- C10: a record lacking CustomReleaseStatus reports a Customs Hold
and a record lacking UsdaStatus reports a USDA Hold, so the empty
record has has_holds true with hold_types
["Customs Hold", "USDA Hold"] and available_for_pickup false; a record
lacking CarrierReleaseStatus never reports a Carrier Hold (only the
exact value "HOLD" triggers one). -/
theorem c10_absent_fields_hold_behavior (r s t : Record) (now : String)
    (hc : List.lookup "CustomReleaseStatus" r = none)
    (hu : List.lookup "UsdaStatus" s = none)
    (hcar : List.lookup "CarrierReleaseStatus" t = none) :
    "Customs Hold" ∈ (has_holds r).2 ∧
    "USDA Hold" ∈ (has_holds s).2 ∧
    "Carrier Hold" ∉ (has_holds t).2 ∧
    (has_holds ([] : Record)).1 = true ∧
    (has_holds ([] : Record)).2 = ["Customs Hold", "USDA Hold"] ∧
    List.lookup "available_for_pickup" (extract_data_by_intent [] "availability" now)
        = some (.vBool false) := by
  refine ⟨?_, ?_, ?_, rfl, rfl, rfl⟩
  · have e : pyGet r "CustomReleaseStatus" = .null := by simp [pyGet, hc]
    simp [has_holds, e, pyEq_null_vStr]
  · have e : pyGet s "UsdaStatus" = .null := by simp [pyGet, hu]
    simp [has_holds, e, pyEq_null_vStr]
  · have e : pyGet t "CarrierReleaseStatus" = .null := by simp [pyGet, hcar]
    simp only [has_holds, e, pyEq_null_vStr, List.mem_append, not_or,
      Bool.false_eq_true, if_false]
    refine ⟨⟨⟨⟨⟨?_, ?_⟩, ?_⟩, ?_⟩, ?_⟩, ?_⟩ <;>
      first
        | exact not_mem_ite_singleton (by decide)
        | exact not_mem_ite_singleton (Ne.symm (miscLabel_ne_carrier _))
        | simp

/-- Witness for C10 at the empty record. -/
theorem c10_absent_fields_hold_behavior_witness :
    List.lookup "CustomReleaseStatus" ([] : Record) = none ∧
    "Customs Hold" ∈ (has_holds ([] : Record)).2 ∧
    "Carrier Hold" ∉ (has_holds ([] : Record)).2 :=
  ⟨rfl,
   (c10_absent_fields_hold_behavior [] [] [] "T" rfl rfl rfl).1,
   (c10_absent_fields_hold_behavior [] [] [] "T" rfl rfl rfl).2.2.1⟩
